import Mathlib

/-!
# BaikalDataGenerator: `ObjectLoader`

A shallow embedding of `BaikalDataGenerator/Source/object_loader.cpp` together with
`app_config.h` and `data_generator_params.h`.

* Paths (`std::filesystem::path`) are strings in POSIX generic format.
* The file system is an explicit state: which paths exist, which are directories, and which
  XML document `tinyxml2` obtains from each path.
* `float` values are elements of a type `F` with the operations the loader uses, collected in
  `Numerics`; `binary32` is the instance for IEEE 754 single precision, rounding to nearest.
* `THROW_EX` is a thrown `std::runtime_error`; every throw site is one constructor of `LoadError`
  that carries the string streamed after the fixed text.
* `size_t` and `unsigned` values are natural numbers; the narrowing cast is `% 2 ^ 32`.
-/

set_option autoImplicit false
set_option maxRecDepth 100000

namespace Baikal

/-! ## Paths -/

/-- The last component of a path: what follows the last `/`. -/
def filename (p : List Char) : List Char :=
  (p.reverse.takeWhile (fun c => c != '/')).reverse

/-- The function `std::filesystem::path::extension`: empty for `.` and `..`, for a file name
without a period and for one whose only period is its first character; otherwise the part of the
file name from its last period on. -/
def extension (p : String) : String :=
  let f := filename p.data
  if f = ['.'] ∨ f = ['.', '.'] then ""
  else
    match f.reverse.dropWhile (fun c => c != '.') with
    | [] => ""
    | [_] => ""
    | _ :: _ :: _ => ⟨'.' :: (f.reverse.takeWhile (fun c => c != '.')).reverse⟩

/-- The function `std::filesystem::path::is_relative` (POSIX: no leading `/`). -/
def is_relative (p : String) : Bool :=
  match p.data with
  | '/' :: _ => false
  | _ => true

/-- The function `std::filesystem::path::parent_path`: the path without its last component and
without the separators before it; the root directory is its own parent. -/
def parent_path (p : String) : String :=
  let dir := p.data.reverse.dropWhile (fun c => c != '/')
  match dir.dropWhile (fun c => c == '/') with
  | [] => ⟨dir.reverse.take 1⟩
  | d => ⟨d.reverse⟩

/-- The operator `/` of `std::filesystem::path`: an absolute right operand replaces the left one;
otherwise the operands are joined by one separator. -/
def pathAppend (lhs rhs : String) : String :=
  if is_relative rhs = false then rhs
  else if lhs = "" then rhs
  else if lhs.data.getLast? = some '/' then lhs ++ rhs
  else lhs ++ "/" ++ rhs

/-! ## Configuration (`app_config.h`) -/

/-- The struct `AppConfig`. -/
structure AppConfig where
  scene_file : String
  light_file : String
  camera_file : String
  spp_file : String
  output_dir : String
  width : Nat := 0
  height : Nat := 0
  split_num : Nat := 1
  split_idx : Nat := 0
  offset_idx : Int := 0
  num_bounces : Nat := 5
  device_idx : Nat := 0
  gamma_correction : Bool := false
  deriving DecidableEq, Repr

/-! ## Errors -/

/-- The throw sites of `object_loader.cpp`, each with the string it streams after its text. -/
inductive LoadError where
  /-- `ASSERT_PATH`: "Missing: " followed by `file_name.string()`. -/
  | missing (path : String)
  /-- `ASSERT_XML`: "Not and XML file: " followed by `file_name.string()`. -/
  | notXml (path : String)
  /-- `ASSERT_FILE_EXISTS`: "File not found: " followed by `file_name.string()`. -/
  | fileNotFound (path : String)
  /-- `ValidateConfig`: "Not a directory: " followed by the output directory. -/
  | notADirectory (path : String)
  /-- Constructor: "'split_num' should be positive and less than camera states number". -/
  | invalidSplitNum
  /-- Constructor: "'split_idx' must be less than split_num". -/
  | invalidSplitIdx
  /-- `LoadCameras`: "Failed to open cameras set file: " followed by the camera file. -/
  | camerasFile (path : String)
  /-- `LoadLights`: "Failed to open lights set file: " followed by the light file. -/
  | lightsFile (path : String)
  /-- `LoadLights`: "Unsupported light type: " followed by the `type` attribute. -/
  | unsupportedLightType (type : String)
  /-- `LoadLights`: "Texture image not found: " followed by the texture path. -/
  | textureNotFound (path : String)
  /-- `LoadSpp`: "Failed to open SPP file: " followed by the spp file. -/
  | sppFile (path : String)
  /-- `LoadLights` builds a `std::string` or a path from an attribute that is absent (a null
  pointer); the behaviour of the program is undefined from there on. -/
  | nullAttribute (name : String)
  /-- The image loader behind `MaterialObject::CreateImage` rejected the file. -/
  | imageNotLoaded (path : String)
  deriving DecidableEq, Repr

/-- The text of the exception, as streamed at the throw site. -/
def LoadError.what : LoadError → String
  | .missing p => "Missing: " ++ p
  | .notXml p => "Not and XML file: " ++ p
  | .fileNotFound p => "File not found: " ++ p
  | .notADirectory p => "Not a directory: " ++ p
  | .invalidSplitNum => "'split_num' should be positive and less than camera states number"
  | .invalidSplitIdx => "'split_idx' must be less than split_num"
  | .camerasFile p => "Failed to open cameras set file: " ++ p
  | .lightsFile p => "Failed to open lights set file: " ++ p
  | .unsupportedLightType t => "Unsupported light type: " ++ t
  | .textureNotFound p => "Texture image not found: " ++ p
  | .sppFile p => "Failed to open SPP file: " ++ p
  | .nullAttribute n => "null attribute: " ++ n
  | .imageNotLoaded p => "image not loaded: " ++ p

deriving instance DecidableEq for Except

/-- The errors of the two shard checks of the constructor. -/
def LoadError.isShardError : LoadError → Bool
  | .invalidSplitNum => true
  | .invalidSplitIdx => true
  | _ => false

/-! ## XML documents (`tinyxml2`) -/

/-- An element: its tag, its attributes in document order, its child elements in document
order. -/
inductive XMLElement where
  | mk (name : String) (attributes : List (String × String)) (children : List XMLElement)

/-- The tag of an element. -/
def XMLElement.Name : XMLElement → String
  | .mk n _ _ => n

/-- The attributes of an element. -/
def XMLElement.attributes : XMLElement → List (String × String)
  | .mk _ a _ => a

/-- The child elements of an element. -/
def XMLElement.children : XMLElement → List XMLElement
  | .mk _ _ c => c

/-- The function `XMLElement::Attribute(name)`: the value of the first attribute of that name, a
null pointer when there is none. -/
def XMLElement.Attribute (e : XMLElement) (name : String) : Option String :=
  (e.attributes.find? (fun a => a.1 = name)).map (fun a => a.2)

/-- The function `FirstChildElement(name)` on a list of child elements: the first one with the
tag. -/
def FirstChildElement (children : List XMLElement) (name : String) : Option XMLElement :=
  children.find? (fun e => e.Name = name)

/-- The state of the file system the loader observes. `LoadFile` of a path that cannot be read or
parsed leaves the document without elements. -/
structure FileSystem where
  /-- The function `std::filesystem::exists`. -/
  pathExists : String → Bool
  /-- The function `std::filesystem::is_directory`. -/
  is_directory : String → Bool
  /-- The top-level elements of the document `XMLDocument::LoadFile` reads from a path. -/
  LoadFile : String → List XMLElement
  /-- Whether the image loader accepts the file at a path. -/
  imageLoads : String → Bool

/-! ## `ValidateConfig` -/

/-- The check `ASSERT_PATH`. -/
def ASSERT_PATH (file_name : String) : Except LoadError Unit :=
  if file_name = "" then .error (.missing file_name) else .ok ()

/-- The check `ASSERT_XML`. -/
def ASSERT_XML (file_name : String) : Except LoadError Unit :=
  if extension file_name ≠ ".xml" then .error (.notXml file_name) else .ok ()

/-- The check `ASSERT_FILE_EXISTS`. -/
def ASSERT_FILE_EXISTS (fs : FileSystem) (file_name : String) : Except LoadError Unit :=
  if fs.pathExists file_name = false then .error (.fileNotFound file_name) else .ok ()

/-- The method `ObjectLoader::ValidateConfig`. -/
def ValidateConfig (fs : FileSystem) (config : AppConfig) : Except LoadError Unit := do
  ASSERT_PATH config.camera_file
  ASSERT_PATH config.light_file
  ASSERT_PATH config.spp_file
  ASSERT_PATH config.scene_file
  ASSERT_PATH config.output_dir
  ASSERT_XML config.camera_file
  ASSERT_XML config.light_file
  ASSERT_XML config.spp_file
  ASSERT_FILE_EXISTS fs config.camera_file
  ASSERT_FILE_EXISTS fs config.light_file
  ASSERT_FILE_EXISTS fs config.spp_file
  ASSERT_FILE_EXISTS fs config.scene_file
  if fs.is_directory config.output_dir = false then
    .error (.notADirectory config.output_dir)
  else
    .ok ()

/-! ## Numbers -/

/-- The operations on `float` and the conversions of `tinyxml2` the loader uses. -/
structure Numerics (F : Type) where
  /-- The literal `0.f`. -/
  zero : F
  /-- The literal `1.f`. -/
  one : F
  /-- The literal `0.036f`. -/
  sensor_width : F
  /-- The cast `static_cast<float>` of a `size_t`. -/
  ofSizeT : Nat → F
  /-- Addition of two `float`. -/
  add : F → F → F
  /-- Product of two `float`. -/
  mul : F → F → F
  /-- Quotient of two `float`. -/
  div : F → F → F
  /-- The comparison `x == 0.f`. -/
  isZero : F → Bool
  /-- The conversion `XMLUtil::ToFloat` of an attribute value; `none` when it fails. -/
  ToFloat : String → Option F
  /-- The conversion `XMLUtil::ToInt64` of an attribute value; `none` when it fails. -/
  ToInt64 : String → Option Int

/-- The type `RadeonRays::float3`. -/
structure float3 (F : Type) where
  x : F
  y : F
  z : F
  deriving DecidableEq, Repr

/-- The type `RadeonRays::float2`. -/
structure float2 (F : Type) where
  x : F
  y : F
  deriving DecidableEq, Repr

/-- The method `float3::sqnorm`: `x*x + y*y + z*z`. -/
def float3.sqnorm {F : Type} (num : Numerics F) (v : float3 F) : F :=
  num.add (num.add (num.mul v.x v.x) (num.mul v.y v.y)) (num.mul v.z v.z)

/-- The method `XMLElement::FloatAttribute(name)`: the converted value of the attribute, and the
default `0` when the attribute is absent or does not convert. -/
def FloatAttribute {F : Type} (num : Numerics F) (elem : XMLElement) (name : String) : F :=
  match elem.Attribute name with
  | none => num.zero
  | some value => (num.ToFloat value).getD num.zero

/-- The method `XMLElement::Int64Attribute(name)`, with the default `0`. -/
def Int64Attribute {F : Type} (num : Numerics F) (elem : XMLElement) (name : String) : Int :=
  match elem.Attribute name with
  | none => 0
  | some value => (num.ToInt64 value).getD 0

/-! ## Cameras -/

/-- A `CameraObject`, as the values the loader passes to its setters: `LookAt(eye, at, up)`,
`SetSensorSize`, `SetFocalLength`, `SetFocusDistance`, `SetAperture`. -/
structure CameraObject (F : Type) where
  eye : float3 F
  at_ : float3 F
  up : float3 F
  sensor_size : float2 F
  focal_length : F
  focus_distance : F
  aperture : F
  deriving DecidableEq, Repr

/-- The up vector `LoadCameras` passes on: the canonical `(0, 1, 0)` when `up.sqnorm() == 0.f`. -/
def upOrDefault {F : Type} (num : Numerics F) (up : float3 F) : float3 F :=
  if num.isZero (up.sqnorm num) then ⟨num.zero, num.one, num.zero⟩ else up

/-- The body of the loop of `LoadCameras`: the camera built from one `<camera>` element. -/
def cameraOfElement {F : Type} (num : Numerics F) (config : AppConfig) (elem : XMLElement) :
    CameraObject F :=
  let eye : float3 F :=
    ⟨FloatAttribute num elem "cpx", FloatAttribute num elem "cpy", FloatAttribute num elem "cpz"⟩
  let at_ : float3 F :=
    ⟨FloatAttribute num elem "tpx", FloatAttribute num elem "tpy", FloatAttribute num elem "tpz"⟩
  let up : float3 F :=
    ⟨FloatAttribute num elem "upx", FloatAttribute num elem "upy", FloatAttribute num elem "upz"⟩
  let up := upOrDefault num up
  let sensor_width := num.sensor_width
  let sensor_height :=
    num.mul (num.div (num.ofSizeT config.height) (num.ofSizeT config.width)) sensor_width
  { eye := eye
    at_ := at_
    up := up
    sensor_size := ⟨num.sensor_width, sensor_height⟩
    focal_length := FloatAttribute num elem "focal_length"
    focus_distance := FloatAttribute num elem "focus_dist"
    aperture := FloatAttribute num elem "aperture" }

/-- The loop of `LoadCameras` from the current position in the list of siblings: `elem` is the
next element with tag `camera`, whose camera is pushed to the back of `m_cameras`. -/
def LoadCamerasLoop {F : Type} (num : Numerics F) (config : AppConfig) :
    List XMLElement → List (CameraObject F) → List (CameraObject F)
  | [], m_cameras => m_cameras
  | elem :: siblings, m_cameras =>
    if elem.Name = "camera" then
      LoadCamerasLoop num config siblings (m_cameras ++ [cameraOfElement num config elem])
    else
      LoadCamerasLoop num config siblings m_cameras

/-- The method `ObjectLoader::LoadCameras`, from the value of `m_cameras` to its new value. -/
def LoadCameras {F : Type} (num : Numerics F) (fs : FileSystem) (config : AppConfig)
    (m_cameras : List (CameraObject F)) : Except LoadError (List (CameraObject F)) :=
  match FirstChildElement (fs.LoadFile config.camera_file) "cam_list" with
  | none => .error (.camerasFile config.camera_file)
  | some root => .ok (LoadCamerasLoop num config root.children m_cameras)

/-! ## Lights -/

/-- The enumeration `LightObject::Type`. -/
inductive LightType where
  | kPointLight
  | kSpotLight
  | kDirectionalLight
  | kEnvironmentLight
  deriving DecidableEq, Repr

/-- The table `kLightTypesMap`. -/
def kLightTypesMap : List (String × LightType) :=
  [ ("point", .kPointLight),
    ("spot", .kSpotLight),
    ("direct", .kDirectionalLight),
    ("ibl", .kEnvironmentLight) ]

/-- A `LightObject`: its type, and the values the loader passes to its setters
(`SetSpotConeShape`, `SetEnvTexture`, `SetEnvMultiplier` are called for some types only). -/
structure LightObject (F : Type) where
  type : LightType
  spot_cone_shape : Option (float2 F) := none
  env_texture : Option String := none
  env_multiplier : Option F := none
  position : float3 F
  direction : float3 F
  radiant_power : float3 F
  deriving DecidableEq, Repr

/-- The texture path of an environment light: a relative `tex` attribute is taken from the
directory of the light file. -/
def resolveTexture (config : AppConfig) (tex : String) : String :=
  if is_relative tex then pathAppend (parent_path config.light_file) tex else tex

/-- The body of the loop of `LoadLights` up to `push_back`: the light built from one `<light>`
element, or the exception thrown on the way. -/
def lightOfElement {F : Type} (num : Numerics F) (fs : FileSystem) (config : AppConfig)
    (elem : XMLElement) : Except LoadError (LightObject F) :=
  match elem.Attribute "type" with
  | none => .error (.nullAttribute "type")
  | some type_name =>
    match kLightTypesMap.lookup type_name with
    | none => .error (.unsupportedLightType type_name)
    | some light_type =>
      let position : float3 F :=
        ⟨FloatAttribute num elem "posx", FloatAttribute num elem "posy",
          FloatAttribute num elem "posz"⟩
      let direction : float3 F :=
        ⟨FloatAttribute num elem "dirx", FloatAttribute num elem "diry",
          FloatAttribute num elem "dirz"⟩
      let radiance : float3 F :=
        ⟨FloatAttribute num elem "radx", FloatAttribute num elem "rady",
          FloatAttribute num elem "radz"⟩
      match light_type with
      | .kSpotLight =>
        let csx := FloatAttribute num elem "csx"
        let csy := FloatAttribute num elem "csy"
        .ok { type := light_type, spot_cone_shape := some ⟨csx, csy⟩,
              position := position, direction := direction, radiant_power := radiance }
      | .kEnvironmentLight =>
        let multiplier := FloatAttribute num elem "mul"
        match elem.Attribute "tex" with
        | none => .error (.nullAttribute "tex")
        | some tex =>
          let texture_path := resolveTexture config tex
          if fs.pathExists texture_path = false then
            .error (.textureNotFound texture_path)
          else if fs.imageLoads texture_path = false then
            .error (.imageNotLoaded texture_path)
          else
            .ok { type := light_type, env_texture := some texture_path,
                  env_multiplier := some multiplier,
                  position := position, direction := direction, radiant_power := radiance }
      | _ =>
        .ok { type := light_type,
              position := position, direction := direction, radiant_power := radiance }

/-- The loop of `LoadLights` from the current position in the list of siblings. The result is the
value of `m_lights` when the loop ends, and the exception that ended it, if one did. -/
def LoadLightsLoop {F : Type} (num : Numerics F) (fs : FileSystem) (config : AppConfig) :
    List XMLElement → List (LightObject F) → List (LightObject F) × Option LoadError
  | [], m_lights => (m_lights, none)
  | elem :: siblings, m_lights =>
    if elem.Name = "light" then
      match lightOfElement num fs config elem with
      | .error e => (m_lights, some e)
      | .ok light => LoadLightsLoop num fs config siblings (m_lights ++ [light])
    else
      LoadLightsLoop num fs config siblings m_lights

/-- The method `ObjectLoader::LoadLights`: the value of `m_lights` when it ends, and the
exception that ended it, if one did. -/
def LoadLights {F : Type} (num : Numerics F) (fs : FileSystem) (config : AppConfig)
    (m_lights : List (LightObject F)) : List (LightObject F) × Option LoadError :=
  match FirstChildElement (fs.LoadFile config.light_file) "light_list" with
  | none => (m_lights, some (.lightsFile config.light_file))
  | some root => LoadLightsLoop num fs config root.children m_lights

/-! ## Samples per pixel -/

/-- The loop of `LoadSpp`: the `iter_num` of every `<spp>` element, cast to `size_t`. -/
def LoadSppLoop {F : Type} (num : Numerics F) : List XMLElement → List Nat → List Nat
  | [], m_spp => m_spp
  | elem :: siblings, m_spp =>
    if elem.Name = "spp" then
      LoadSppLoop num siblings (m_spp ++ [(Int64Attribute num elem "iter_num" % 2 ^ 64).toNat])
    else
      LoadSppLoop num siblings m_spp

/-- The method `ObjectLoader::LoadSpp`, from the value of `m_spp` to its new value. -/
def LoadSpp {F : Type} (num : Numerics F) (fs : FileSystem) (config : AppConfig)
    (m_spp : List Nat) : Except LoadError (List Nat) :=
  match FirstChildElement (fs.LoadFile config.spp_file) "spp_list" with
  | none => .error (.sppFile config.spp_file)
  | some root => .ok (LoadSppLoop num root.children m_spp)

/-! ## Shard split -/

/-- Modelled from the spec: the function template `GetSplitByIdx` of `utils.h`, which is not among
the sources at hand. The spec gives it the contract "given a sequence, a shard count N (must be >0
and ≤ sequence length), and a shard index (must be < N), return the contiguous sub-sequence
assigned to that shard under an even/ceiling split policy": every shard is a window of
`⌈length / N⌉` consecutive positions, shard `split_idx` being the window that starts at
`split_idx * ⌈length / N⌉`, cut off at the end of the sequence. -/
def GetSplitByIdx {α : Type} (v : List α) (split_num split_idx : Nat) : List α :=
  let split_size := (v.length + split_num - 1) / split_num
  (v.drop (split_idx * split_size)).take split_size

/-! ## The loader -/

/-- The data members of `ObjectLoader` (`m_scene` is never assigned: `LoadScene` is not
called). -/
structure ObjectLoader (F : Type) where
  m_cameras : List (CameraObject F)
  m_lights : List (LightObject F)
  m_spp : List Nat
  m_app_config : AppConfig

/-- The accessor `ObjectLoader::Cameras`. -/
def ObjectLoader.Cameras {F : Type} (l : ObjectLoader F) : List (CameraObject F) := l.m_cameras

/-- The accessor `ObjectLoader::Lights`. -/
def ObjectLoader.Lights {F : Type} (l : ObjectLoader F) : List (LightObject F) := l.m_lights

/-- The accessor `ObjectLoader::Spp`. -/
def ObjectLoader.Spp {F : Type} (l : ObjectLoader F) : List Nat := l.m_spp

/-- A run of the constructor: the loader, or the exception that ended the construction, and the
paths handed to `XMLDocument::LoadFile`, in order. -/
structure Construction (F : Type) where
  result : Except LoadError (ObjectLoader F)
  opened : List String

/-- The constructor `ObjectLoader::ObjectLoader(config)`. -/
def ObjectLoader.construct {F : Type} (num : Numerics F) (fs : FileSystem) (config : AppConfig) :
    Construction F :=
  match ValidateConfig fs config with
  | .error e => ⟨.error e, []⟩
  | .ok _ =>
    match LoadCameras num fs config [] with
    | .error e => ⟨.error e, [config.camera_file]⟩
    | .ok m_cameras =>
      if config.split_num = 0 ∨ config.split_num > m_cameras.length then
        ⟨.error .invalidSplitNum, [config.camera_file]⟩
      else if config.split_idx ≥ config.split_num then
        ⟨.error .invalidSplitIdx, [config.camera_file]⟩
      else
        let m_cameras := GetSplitByIdx m_cameras config.split_num config.split_idx
        match LoadLights num fs config [] with
        | (_, some e) => ⟨.error e, [config.camera_file, config.light_file]⟩
        | (m_lights, none) =>
          match LoadSpp num fs config [] with
          | .error e => ⟨.error e, [config.camera_file, config.light_file, config.spp_file]⟩
          | .ok m_spp =>
            ⟨.ok { m_cameras := m_cameras, m_lights := m_lights, m_spp := m_spp,
                   m_app_config := config },
              [config.camera_file, config.light_file, config.spp_file]⟩

/-! ## Parameters for the generator (`data_generator_params.h`) -/

/-- A `const char*` as the loader produces it: the `c_str()` of a `std::string`. The flag says
whether that string is a temporary of the assigning expression, gone once the assignment is
done. -/
structure CStr where
  contents : String
  ofTemporary : Bool
  deriving DecidableEq, Repr

/-- The struct `DataGeneratorParams`. It has no initialisers: a member is `none` until it is
assigned. A pointer to an array is the collection it refers to. -/
structure DataGeneratorParams (F : Type) where
  output_dir : Option CStr := none
  scene : Option Unit := none
  cameras : Option (List (CameraObject F)) := none
  cameras_num : Option Nat := none
  cameras_start_idx : Option Int := none
  lights : Option (List (LightObject F)) := none
  lights_num : Option Nat := none
  spp : Option (List Nat) := none
  spp_num : Option Nat := none
  width : Option Nat := none
  height : Option Nat := none
  bounces_num : Option Nat := none
  device_idx : Option Nat := none

/-- The cast `static_cast<unsigned>` of a `size_t`. -/
def toUnsigned (n : Nat) : Nat := n % 2 ^ 32

/-- The method `ObjectLoader::GetDataGeneratorParams`. -/
def ObjectLoader.GetDataGeneratorParams {F : Type} (l : ObjectLoader F) :
    DataGeneratorParams F :=
  let params : DataGeneratorParams F := {}
  let params := { params with width := some (toUnsigned l.m_app_config.width) }
  let params := { params with height := some (toUnsigned l.m_app_config.height) }
  let params := { params with output_dir := some ⟨l.m_app_config.output_dir, true⟩ }
  params

/-! ## IEEE 754 single precision -/

/-- A `float`: an IEEE 754 binary32 value. `finite s m e` is `(-1)^s * m * 2^e` with `m < 2^24`
and `-149 ≤ e ≤ 104`, where `2^23 ≤ m` unless `e = -149` (zero and the subnormal numbers);
`inf s` is the infinity of sign `s`. -/
inductive Binary32 where
  | finite (sign : Bool) (m : Nat) (e : Int)
  | inf (sign : Bool)
  | nan
  deriving DecidableEq, Repr

/-- The number of binary digits of `n`, counted with `fuel` halvings at most. -/
def bitLengthAux : Nat → Nat → Nat
  | 0, _ => 0
  | fuel + 1, n => if n = 0 then 0 else bitLengthAux fuel (n / 2) + 1

/-- The number of binary digits of `n`. -/
def bitLength (n : Nat) : Nat := bitLengthAux n n

/-- Numerator and denominator of `(n / d) / 2^e`. -/
def scaleDown (n d : Nat) (e : Int) : Nat × Nat :=
  if 0 ≤ e then (n, d * 2 ^ e.toNat) else (n * 2 ^ (-e).toNat, d)

/-- The binary32 value nearest to `(-1)^sign * n / d` (for `d > 0`), ties to the even
significand: the rounding of every arithmetic operation and conversion. The quantum is `2^e` with
`e = max (⌊log2 (n/d)⌋ - 23) (-149)`; a result of `2^128` or more is an infinity, a result below
half the smallest subnormal number is zero. -/
def roundRat (sign : Bool) (n d : Nat) : Binary32 :=
  if n = 0 then .finite sign 0 (-149)
  else
    let E0 : Int := (bitLength n : Int) - (bitLength d : Int)
    let E : Int := if (scaleDown n d E0).2 ≤ (scaleDown n d E0).1 then E0 else E0 - 1
    let e : Int := max (E - 23) (-149)
    let N := (scaleDown n d e).1
    let D := (scaleDown n d e).2
    let q := N / D
    let r := N % D
    let q := if D < 2 * r ∨ (2 * r = D ∧ q % 2 = 1) then q + 1 else q
    if q = 2 ^ 24 then
      if 104 < e + 1 then .inf sign else .finite sign (2 ^ 23) (e + 1)
    else if 104 < e then .inf sign
    else .finite sign q e

/-- The binary32 value nearest to `(-1)^sign * m * 2^e`. -/
def roundDyadic (sign : Bool) (m : Nat) (e : Int) : Binary32 :=
  if 0 ≤ e then roundRat sign (m * 2 ^ e.toNat) 1 else roundRat sign m (2 ^ (-e).toNat)

/-- The product of two `float`. -/
def Binary32.mul : Binary32 → Binary32 → Binary32
  | .nan, _ => .nan
  | _, .nan => .nan
  | .inf s, .inf t => .inf (xor s t)
  | .inf s, .finite t m _ => if m = 0 then .nan else .inf (xor s t)
  | .finite s m _, .inf t => if m = 0 then .nan else .inf (xor s t)
  | .finite s m e, .finite t m2 e2 => roundDyadic (xor s t) (m * m2) (e + e2)

/-- The sum of two `float`. An exact zero sum is `+0`, unless both terms are `-0`. -/
def Binary32.add : Binary32 → Binary32 → Binary32
  | .nan, _ => .nan
  | _, .nan => .nan
  | .inf s, .inf t => if s = t then .inf s else .nan
  | .inf s, .finite _ _ _ => .inf s
  | .finite _ _ _, .inf t => .inf t
  | .finite s m e, .finite t m2 e2 =>
    let e0 := min e e2
    let a : Int := (m * 2 ^ (e - e0).toNat : Nat)
    let b : Int := (m2 * 2 ^ (e2 - e0).toNat : Nat)
    let sum : Int := (if s then -a else a) + (if t then -b else b)
    if sum = 0 then .finite (if m = 0 ∧ m2 = 0 then s && t else false) 0 (-149)
    else roundDyadic (decide (sum < 0)) sum.natAbs e0

/-- The quotient of two `float`. -/
def Binary32.div : Binary32 → Binary32 → Binary32
  | .nan, _ => .nan
  | _, .nan => .nan
  | .inf _, .inf _ => .nan
  | .inf s, .finite t _ _ => .inf (xor s t)
  | .finite s _ _, .inf t => .finite (xor s t) 0 (-149)
  | .finite s m e, .finite t m2 e2 =>
    if m2 = 0 then (if m = 0 then .nan else .inf (xor s t))
    else
      let n := if 0 ≤ e - e2 then m * 2 ^ (e - e2).toNat else m
      let d := if 0 ≤ e - e2 then m2 else m2 * 2 ^ (e2 - e).toNat
      roundRat (xor s t) n d

/-- The comparison `x == 0.f`: true of both zeros, false of everything else, NaN included. -/
def Binary32.isZero : Binary32 → Bool
  | .finite _ m _ => decide (m = 0)
  | _ => false

/-- The value of a run of decimal digits. -/
def digitsValue (ds : List Char) : Nat :=
  ds.foldl (fun n c => 10 * n + (c.toNat - 48)) 0

/-- The exponent part of a decimal spelling: `e` or `E`, an optional sign and at least one
digit; anything else is no exponent. -/
def scanExponent : List Char → Int
  | c :: rest =>
    if c = 'e' ∨ c = 'E' then
      match rest with
      | '-' :: ds =>
        if ds.takeWhile Char.isDigit = [] then 0
        else -((digitsValue (ds.takeWhile Char.isDigit) : Nat) : Int)
      | '+' :: ds => ((digitsValue (ds.takeWhile Char.isDigit) : Nat) : Int)
      | ds => ((digitsValue (ds.takeWhile Char.isDigit) : Nat) : Int)
    else 0
  | [] => 0

/-- The conversion `XMLUtil::ToFloat`, `sscanf` with `%f`, on decimal spellings: white space, an
optional sign, digits with an optional point, an optional exponent; what follows is not looked
at, and a text without a digit does not convert. The hexadecimal spelling and the spellings of
infinity and NaN are not covered. -/
def scanFloat (s : String) : Option Binary32 :=
  let cs := s.data.dropWhile Char.isWhitespace
  let neg := decide (cs.head? = some '-')
  let cs := if cs.head? = some '-' ∨ cs.head? = some '+' then cs.tail else cs
  let ip := cs.takeWhile Char.isDigit
  let cs := cs.dropWhile Char.isDigit
  let fp := if cs.head? = some '.' then cs.tail.takeWhile Char.isDigit else []
  let cs := if cs.head? = some '.' then cs.tail.dropWhile Char.isDigit else cs
  if ip = [] ∧ fp = [] then none
  else
    let k : Int := scanExponent cs - (fp.length : Int)
    some (if 0 ≤ k then roundRat neg (digitsValue (ip ++ fp) * 10 ^ k.toNat) 1
      else roundRat neg (digitsValue (ip ++ fp)) (10 ^ (-k).toNat))

/-- The conversion `XMLUtil::ToInt64`, `sscanf` with `%lld`, on decimal spellings: white space,
an optional sign, at least one digit; what follows is not looked at. -/
def scanInt64 (s : String) : Option Int :=
  let cs := s.data.dropWhile Char.isWhitespace
  let neg := decide (cs.head? = some '-')
  let cs := if cs.head? = some '-' ∨ cs.head? = some '+' then cs.tail else cs
  let ds := cs.takeWhile Char.isDigit
  if ds = [] then none
  else some (if neg then -((digitsValue ds : Nat) : Int) else ((digitsValue ds : Nat) : Int))

/-- The arithmetic of `float` in IEEE 754 single precision, rounding to nearest. -/
def binary32 : Numerics Binary32 where
  zero := .finite false 0 (-149)
  one := roundRat false 1 1
  sensor_width := roundRat false 36 1000
  ofSizeT := fun n => roundRat false n 1
  add := Binary32.add
  mul := Binary32.mul
  div := Binary32.div
  isZero := Binary32.isZero
  ToFloat := scanFloat
  ToInt64 := scanInt64

/-! ## Small documents for evaluating the loader -/

/-- Decimal digits to a number; `none` for any other text. -/
def digits : List Char → Option Nat
  | [] => none
  | cs => cs.foldl (fun acc c =>
      match acc with
      | none => none
      | some n => if c.isDigit then some (10 * n + (c.toNat - 48)) else none) (some 0)

/-- Integer arithmetic in the place of `float`, for evaluating the loader on small documents. -/
def intNumerics : Numerics Int where
  zero := 0
  one := 1
  sensor_width := 36
  ofSizeT := fun n => (n : Int)
  add := fun a b => a + b
  mul := fun a b => a * b
  div := fun a b => a / b
  isZero := fun a => decide (a = 0)
  ToFloat := fun s => (digits s.data).map (fun n => (n : Int))
  ToInt64 := fun s => (digits s.data).map (fun n => (n : Int))

/-- A `cam_list` root with two `<camera>` elements, around an element of another tag. -/
def twoCamerasRoot : XMLElement :=
  .mk "cam_list" []
    [ .mk "camera" [("cpx", "1"), ("tpz", "2"), ("upx", "0"), ("upy", "0"), ("upz", "0")] [],
      .mk "note" [] [],
      .mk "camera" [("cpx", "3"), ("tpz", "4"), ("upz", "1")] [] ]

/-- A camera file with two `<camera>` elements. -/
def twoCameras : List XMLElement := [twoCamerasRoot]

/-- A light file with one point light. -/
def oneLight : List XMLElement :=
  [ .mk "light_list" [] [ .mk "light" [("type", "point"), ("posx", "1")] [] ] ]

/-- An spp file with one entry. -/
def oneSpp : List XMLElement :=
  [ .mk "spp_list" [] [ .mk "spp" [("iter_num", "8")] [] ] ]

/-- A directory `out` and the files `cam.xml`, `light.xml`, `spp.xml`, `scene.obj`. -/
def sampleFiles : FileSystem where
  pathExists := fun p =>
    decide (p = "cam.xml") || decide (p = "light.xml") || decide (p = "spp.xml") ||
      decide (p = "scene.obj") || decide (p = "out")
  is_directory := fun p => decide (p = "out")
  LoadFile := fun p =>
    if p = "cam.xml" then twoCameras
    else if p = "light.xml" then oneLight
    else if p = "spp.xml" then oneSpp
    else []
  imageLoads := fun _ => true

/-- A configuration over `sampleFiles` with the default shard parameters. -/
def sampleConfig : AppConfig :=
  { scene_file := "scene.obj", light_file := "light.xml", camera_file := "cam.xml",
    spp_file := "spp.xml", output_dir := "out", width := 800, height := 600 }

theorem ASSERT_PATH_bind (p : String) (k : Except LoadError Unit) :
    (ASSERT_PATH p >>= fun _ => k) = if p = "" then .error (.missing p) else k := by
  unfold ASSERT_PATH; split <;> rfl

theorem ASSERT_XML_bind (p : String) (k : Except LoadError Unit) :
    (ASSERT_XML p >>= fun _ => k) = if extension p ≠ ".xml" then .error (.notXml p) else k := by
  unfold ASSERT_XML; split <;> rfl

theorem ASSERT_FILE_EXISTS_bind (fs : FileSystem) (p : String) (k : Except LoadError Unit) :
    (ASSERT_FILE_EXISTS fs p >>= fun _ => k) =
      if fs.pathExists p = false then .error (.fileNotFound p) else k := by
  unfold ASSERT_FILE_EXISTS; split <;> rfl

/-- The checks of `ValidateConfig` as one cascade, first failure first. -/
theorem ValidateConfig_eq (fs : FileSystem) (config : AppConfig) :
    ValidateConfig fs config =
      if config.camera_file = "" then .error (.missing config.camera_file)
      else if config.light_file = "" then .error (.missing config.light_file)
      else if config.spp_file = "" then .error (.missing config.spp_file)
      else if config.scene_file = "" then .error (.missing config.scene_file)
      else if config.output_dir = "" then .error (.missing config.output_dir)
      else if extension config.camera_file ≠ ".xml" then .error (.notXml config.camera_file)
      else if extension config.light_file ≠ ".xml" then .error (.notXml config.light_file)
      else if extension config.spp_file ≠ ".xml" then .error (.notXml config.spp_file)
      else if fs.pathExists config.camera_file = false then
        .error (.fileNotFound config.camera_file)
      else if fs.pathExists config.light_file = false then
        .error (.fileNotFound config.light_file)
      else if fs.pathExists config.spp_file = false then .error (.fileNotFound config.spp_file)
      else if fs.pathExists config.scene_file = false then
        .error (.fileNotFound config.scene_file)
      else if fs.is_directory config.output_dir = false then
        .error (.notADirectory config.output_dir)
      else .ok () := by
  unfold ValidateConfig
  simp only [ASSERT_PATH_bind, ASSERT_XML_bind, ASSERT_FILE_EXISTS_bind]

theorem fails_ite {p : Prop} [Decidable p] {e : LoadError} {k : Except LoadError Unit}
    {q : Prop} (hk : (∃ x, k = .error x) ↔ q) :
    (∃ x, (if p then .error e else k) = .error x) ↔ p ∨ q := by
  by_cases hp : p
  · rw [if_pos hp]; exact ⟨fun _ => Or.inl hp, fun _ => ⟨e, rfl⟩⟩
  · rw [if_neg hp, hk]; exact ⟨Or.inr, fun h => h.resolve_left hp⟩

theorem fails_ok : (∃ x, (Except.ok () : Except LoadError Unit) = .error x) ↔ False :=
  ⟨fun ⟨_, h⟩ => Except.noConfusion h, False.elim⟩

/-- With an empty required path, validation throws "Missing: " followed by the empty string. -/
theorem ValidateConfig_of_empty (fs : FileSystem) (config : AppConfig)
    (h : config.camera_file = "" ∨ config.light_file = "" ∨ config.spp_file = "" ∨
      config.scene_file = "" ∨ config.output_dir = "") :
    ValidateConfig fs config = .error (.missing "") := by
  rw [ValidateConfig_eq]
  by_cases h1 : config.camera_file = ""
  · rw [if_pos h1, h1]
  rw [if_neg h1]
  by_cases h2 : config.light_file = ""
  · rw [if_pos h2, h2]
  rw [if_neg h2]
  by_cases h3 : config.spp_file = ""
  · rw [if_pos h3, h3]
  rw [if_neg h3]
  by_cases h4 : config.scene_file = ""
  · rw [if_pos h4, h4]
  rw [if_neg h4]
  by_cases h5 : config.output_dir = ""
  · rw [if_pos h5, h5]
  · tauto

/-- Claim C3. `ValidateConfig` throws exactly when a required path (camera, light, spp, scene
file or output directory) is empty, or the camera, light or spp file has an extension other than
`.xml`, or one of the four files does not exist, or the output directory is not a directory; in
every other case it returns normally. It is a function of the configuration and the file system
and returns no value, so it changes neither the configuration nor the loader. -/
theorem ValidateConfig_fails_iff (fs : FileSystem) (config : AppConfig) :
    ((∃ e, ValidateConfig fs config = .error e) ↔
      ((config.camera_file = "" ∨ config.light_file = "" ∨ config.spp_file = "" ∨
          config.scene_file = "" ∨ config.output_dir = "") ∨
        (extension config.camera_file ≠ ".xml" ∨ extension config.light_file ≠ ".xml" ∨
          extension config.spp_file ≠ ".xml") ∨
        (fs.pathExists config.camera_file = false ∨ fs.pathExists config.light_file = false ∨
          fs.pathExists config.spp_file = false ∨ fs.pathExists config.scene_file = false) ∨
        fs.is_directory config.output_dir = false)) ∧
    (ValidateConfig fs config = .ok () ↔
      ¬ ((config.camera_file = "" ∨ config.light_file = "" ∨ config.spp_file = "" ∨
          config.scene_file = "" ∨ config.output_dir = "") ∨
        (extension config.camera_file ≠ ".xml" ∨ extension config.light_file ≠ ".xml" ∨
          extension config.spp_file ≠ ".xml") ∨
        (fs.pathExists config.camera_file = false ∨ fs.pathExists config.light_file = false ∨
          fs.pathExists config.spp_file = false ∨ fs.pathExists config.scene_file = false) ∨
        fs.is_directory config.output_dir = false)) := by
  have key : (∃ e, ValidateConfig fs config = .error e) ↔
      ((config.camera_file = "" ∨ config.light_file = "" ∨ config.spp_file = "" ∨
          config.scene_file = "" ∨ config.output_dir = "") ∨
        (extension config.camera_file ≠ ".xml" ∨ extension config.light_file ≠ ".xml" ∨
          extension config.spp_file ≠ ".xml") ∨
        (fs.pathExists config.camera_file = false ∨ fs.pathExists config.light_file = false ∨
          fs.pathExists config.spp_file = false ∨ fs.pathExists config.scene_file = false) ∨
        fs.is_directory config.output_dir = false) := by
    rw [ValidateConfig_eq]
    refine (fails_ite <| fails_ite <| fails_ite <| fails_ite <| fails_ite <| fails_ite <|
      fails_ite <| fails_ite <| fails_ite <| fails_ite <| fails_ite <| fails_ite <|
      fails_ite fails_ok).trans ?_
    tauto
  refine ⟨key, ?_⟩
  rw [← key]
  cases hv : ValidateConfig fs config with
  | error e => exact ⟨fun h => Except.noConfusion h, fun h => (h ⟨e, rfl⟩).elim⟩
  | ok u => exact ⟨fun _ ⟨e, he⟩ => Except.noConfusion he, fun _ => rfl⟩

/-- Claim C4. With only the camera file empty and with only the light file empty, over the same
files, `ValidateConfig` throws one and the same exception: its text is "Missing: " followed by
the string of the empty path, so nothing in it tells which path is the empty one. -/
theorem ValidateConfig_missing_is_anonymous :
    ValidateConfig sampleFiles { sampleConfig with camera_file := "" } = .error (.missing "") ∧
    ValidateConfig sampleFiles { sampleConfig with light_file := "" } = .error (.missing "") ∧
    (LoadError.missing "").what = "Missing: " := by
  decide

/-- Claim C5, as stated, fails: a configuration whose camera file `cam.txt` lacks the `.xml`
extension and whose light file is empty is rejected for the missing path. -/
theorem ValidateConfig_missing_before_extension :
    extension "cam.txt" ≠ ".xml" ∧
    ValidateConfig sampleFiles { sampleConfig with camera_file := "cam.txt", light_file := "" } =
      .error (.missing "") := by
  decide

/-- Claim C5, amended. When none of the five required paths is empty and the camera, light or spp
file lacks the `.xml` extension, `ValidateConfig` throws the invalid-extension exception, for the
first of the three (in the order camera, light, spp) that lacks it. -/
theorem ValidateConfig_not_xml (fs : FileSystem) (config : AppConfig)
    (hcam : config.camera_file ≠ "") (hlight : config.light_file ≠ "")
    (hspp : config.spp_file ≠ "") (hscene : config.scene_file ≠ "")
    (hout : config.output_dir ≠ "")
    (hext : extension config.camera_file ≠ ".xml" ∨ extension config.light_file ≠ ".xml" ∨
      extension config.spp_file ≠ ".xml") :
    ∃ p, ValidateConfig fs config = .error (.notXml p) ∧ extension p ≠ ".xml" ∧
      (p = config.camera_file ∨
        (extension config.camera_file = ".xml" ∧ p = config.light_file) ∨
        (extension config.camera_file = ".xml" ∧ extension config.light_file = ".xml" ∧
          p = config.spp_file)) := by
  rw [ValidateConfig_eq, if_neg hcam, if_neg hlight, if_neg hspp, if_neg hscene, if_neg hout]
  by_cases h1 : extension config.camera_file ≠ ".xml"
  · rw [if_pos h1]; exact ⟨_, rfl, h1, Or.inl rfl⟩
  rw [if_neg h1]
  by_cases h2 : extension config.light_file ≠ ".xml"
  · rw [if_pos h2]; exact ⟨_, rfl, h2, Or.inr (Or.inl ⟨not_not.mp h1, rfl⟩)⟩
  rw [if_neg h2]
  by_cases h3 : extension config.spp_file ≠ ".xml"
  · rw [if_pos h3]; exact ⟨_, rfl, h3, Or.inr (Or.inr ⟨not_not.mp h1, not_not.mp h2, rfl⟩)⟩
  · tauto

/-- The amended claim C5 at a configuration whose spp file is `spp.txt`. -/
theorem ValidateConfig_not_xml_witness :
    ∃ p, ValidateConfig sampleFiles { sampleConfig with spp_file := "spp.txt" } =
        .error (.notXml p) ∧ extension p ≠ ".xml" ∧
      (p = "cam.xml" ∨ (extension "cam.xml" = ".xml" ∧ p = "light.xml") ∨
        (extension "cam.xml" = ".xml" ∧ extension "light.xml" = ".xml" ∧ p = "spp.txt")) :=
  ValidateConfig_not_xml sampleFiles { sampleConfig with spp_file := "spp.txt" }
    (by decide) (by decide) (by decide) (by decide) (by decide) (by decide)

/-! ## Cameras: document order, the up vector -/

/-- The loop of `LoadCameras` appends one camera for each `<camera>` sibling, in order. -/
theorem LoadCamerasLoop_eq {F : Type} (num : Numerics F) (config : AppConfig)
    (siblings : List XMLElement) (m_cameras : List (CameraObject F)) :
    LoadCamerasLoop num config siblings m_cameras =
      m_cameras ++
        (siblings.filter (fun e => e.Name = "camera")).map (cameraOfElement num config) := by
  induction siblings generalizing m_cameras with
  | nil => simp [LoadCamerasLoop]
  | cons elem rest ih =>
    by_cases h : elem.Name = "camera"
    · rw [LoadCamerasLoop, if_pos h, ih, List.filter_cons_of_pos (by simpa using h)]
      simp
    · rw [LoadCamerasLoop, if_neg h, ih, List.filter_cons_of_neg (by simpa using h)]

/-- The result of `LoadCameras` on a document with a `cam_list` root. -/
theorem LoadCameras_eq {F : Type} (num : Numerics F) (fs : FileSystem) (config : AppConfig)
    (root : XMLElement)
    (hroot : FirstChildElement (fs.LoadFile config.camera_file) "cam_list" = some root) :
    LoadCameras num fs config [] =
      .ok ((root.children.filter (fun e => e.Name = "camera")).map
        (cameraOfElement num config)) := by
  rw [LoadCameras, hroot]
  simp [LoadCamerasLoop_eq]

/-- Claim C10, as stated, fails. In single precision the attribute `upx="1e-30"` reads as the
non-zero number `10633824 * 2^-123`; with `upy="0"` and `upz="0"` the up vector read has
non-zero magnitude, but the square of `upx` is below half the smallest subnormal number and
rounds to zero, `sqnorm()` is `0.f`, and the camera gets the up vector `(0, 1, 0)`. -/
theorem cameraOfElement_tiny_up_replaced :
    FloatAttribute binary32
        (.mk "camera" [("upx", "1e-30"), ("upy", "0"), ("upz", "0")] []) "upx" =
      .finite false 10633824 (-123) ∧
    FloatAttribute binary32
        (.mk "camera" [("upx", "1e-30"), ("upy", "0"), ("upz", "0")] []) "upy" =
      .finite false 0 (-149) ∧
    FloatAttribute binary32
        (.mk "camera" [("upx", "1e-30"), ("upy", "0"), ("upz", "0")] []) "upz" =
      .finite false 0 (-149) ∧
    binary32.mul (.finite false 10633824 (-123)) (.finite false 10633824 (-123)) =
      .finite false 0 (-149) ∧
    (cameraOfElement binary32 sampleConfig
        (.mk "camera" [("upx", "1e-30"), ("upy", "0"), ("upz", "0")] [])).up =
      ⟨.finite false 0 (-149), .finite false 8388608 (-23), .finite false 0 (-149)⟩ := by
  decide

/-- Claim C10, amended. The camera built from a `<camera>` element gets eye `(cpx, cpy, cpz)` and
target `(tpx, tpy, tpz)` unchanged. Its up vector is `(0, 1, 0)` when the squared norm the code
computes in `float`, `upx*upx + upy*upy + upz*upz`, compares equal to `0.f`, and exactly
`(upx, upy, upz)` when it does not. The squared norm is zero when `upx`, `upy` and `upz` are all
absent or all `0` (the sum of the squares of three zeros being zero), so the up vector is
`(0, 1, 0)` then. -/
theorem cameraOfElement_LookAt {F : Type} (num : Numerics F) (config : AppConfig)
    (elem : XMLElement)
    (hzero : num.isZero (num.add (num.add (num.mul num.zero num.zero)
      (num.mul num.zero num.zero)) (num.mul num.zero num.zero)) = true) :
    (cameraOfElement num config elem).eye =
        ⟨FloatAttribute num elem "cpx", FloatAttribute num elem "cpy",
          FloatAttribute num elem "cpz"⟩ ∧
    (cameraOfElement num config elem).at_ =
        ⟨FloatAttribute num elem "tpx", FloatAttribute num elem "tpy",
          FloatAttribute num elem "tpz"⟩ ∧
    (cameraOfElement num config elem).up =
      (if num.isZero (num.add (num.add
          (num.mul (FloatAttribute num elem "upx") (FloatAttribute num elem "upx"))
          (num.mul (FloatAttribute num elem "upy") (FloatAttribute num elem "upy")))
          (num.mul (FloatAttribute num elem "upz") (FloatAttribute num elem "upz"))) = true
        then ⟨num.zero, num.one, num.zero⟩
        else ⟨FloatAttribute num elem "upx", FloatAttribute num elem "upy",
          FloatAttribute num elem "upz"⟩) ∧
    (num.isZero (num.add (num.add
          (num.mul (FloatAttribute num elem "upx") (FloatAttribute num elem "upx"))
          (num.mul (FloatAttribute num elem "upy") (FloatAttribute num elem "upy")))
          (num.mul (FloatAttribute num elem "upz") (FloatAttribute num elem "upz"))) = false →
      (cameraOfElement num config elem).up =
        ⟨FloatAttribute num elem "upx", FloatAttribute num elem "upy",
          FloatAttribute num elem "upz"⟩) ∧
    (num.isZero (num.add (num.add
          (num.mul (FloatAttribute num elem "upx") (FloatAttribute num elem "upx"))
          (num.mul (FloatAttribute num elem "upy") (FloatAttribute num elem "upy")))
          (num.mul (FloatAttribute num elem "upz") (FloatAttribute num elem "upz"))) = true →
      (cameraOfElement num config elem).up = ⟨num.zero, num.one, num.zero⟩) ∧
    ((elem.Attribute "upx" = none ∧ elem.Attribute "upy" = none ∧
        elem.Attribute "upz" = none) ∨
      (FloatAttribute num elem "upx" = num.zero ∧ FloatAttribute num elem "upy" = num.zero ∧
        FloatAttribute num elem "upz" = num.zero) →
      (cameraOfElement num config elem).up = ⟨num.zero, num.one, num.zero⟩) := by
  have hup : (cameraOfElement num config elem).up =
      (if num.isZero (num.add (num.add
          (num.mul (FloatAttribute num elem "upx") (FloatAttribute num elem "upx"))
          (num.mul (FloatAttribute num elem "upy") (FloatAttribute num elem "upy")))
          (num.mul (FloatAttribute num elem "upz") (FloatAttribute num elem "upz"))) = true
        then ⟨num.zero, num.one, num.zero⟩
        else ⟨FloatAttribute num elem "upx", FloatAttribute num elem "upy",
          FloatAttribute num elem "upz"⟩) := rfl
  refine ⟨rfl, rfl, hup, fun h => ?_, fun h => ?_, fun h => ?_⟩
  · rw [hup, h]; rfl
  · rw [hup, if_pos h]
  · have hz : FloatAttribute num elem "upx" = num.zero ∧
        FloatAttribute num elem "upy" = num.zero ∧ FloatAttribute num elem "upz" = num.zero := by
      rcases h with ⟨hx, hy, hz⟩ | h
      · simp only [FloatAttribute, hx, hy, hz, and_self]
      · exact h
    rw [hup, hz.1, hz.2.1, hz.2.2, if_pos hzero]

/-- The amended claim C10 in single precision. A `<camera>` element with eye `(1, 2, 3)`, target
`(4, 5, 6)` and up `(0, 0, 2)` gets them unchanged, and one without up attributes gets the up
vector `(0, 1, 0)`. -/
theorem cameraOfElement_LookAt_witness :
    ((cameraOfElement binary32 sampleConfig
        (.mk "camera" [("cpx", "1"), ("cpy", "2"), ("cpz", "3"), ("tpx", "4"), ("tpy", "5"),
          ("tpz", "6"), ("upz", "2")] [])).eye =
        ⟨.finite false 8388608 (-23), .finite false 8388608 (-22),
          .finite false 12582912 (-22)⟩ ∧
      (cameraOfElement binary32 sampleConfig
        (.mk "camera" [("cpx", "1"), ("cpy", "2"), ("cpz", "3"), ("tpx", "4"), ("tpy", "5"),
          ("tpz", "6"), ("upz", "2")] [])).at_ =
        ⟨.finite false 8388608 (-21), .finite false 10485760 (-21),
          .finite false 12582912 (-21)⟩ ∧
      (cameraOfElement binary32 sampleConfig
        (.mk "camera" [("cpx", "1"), ("cpy", "2"), ("cpz", "3"), ("tpx", "4"), ("tpy", "5"),
          ("tpz", "6"), ("upz", "2")] [])).up =
        ⟨.finite false 0 (-149), .finite false 0 (-149), .finite false 8388608 (-22)⟩) ∧
    (cameraOfElement binary32 sampleConfig (.mk "camera" [("cpx", "1")] [])).up =
      ⟨.finite false 0 (-149), .finite false 8388608 (-23), .finite false 0 (-149)⟩ :=
  have h := cameraOfElement_LookAt binary32 sampleConfig
    (.mk "camera" [("cpx", "1"), ("cpy", "2"), ("cpz", "3"), ("tpx", "4"), ("tpy", "5"),
      ("tpz", "6"), ("upz", "2")] []) (by decide)
  have h2 := cameraOfElement_LookAt binary32 sampleConfig (.mk "camera" [("cpx", "1")] [])
    (by decide)
  ⟨⟨h.1.trans (by decide), h.2.1.trans (by decide), (h.2.2.2.1 (by decide)).trans (by decide)⟩,
    h2.2.2.2.2.2 (Or.inl (by decide))⟩

/-! ## The shard split -/

/-- The first `k` windows of width `c`, one after the other, are the first `k * c` elements. -/
theorem flatMap_windows {α : Type} (v : List α) (c k : Nat) :
    (List.range k).flatMap (fun i => (v.drop (i * c)).take c) = v.take (k * c) := by
  induction k with
  | zero => simp
  | succ k ih =>
    rw [List.range_succ, List.flatMap_append, ih, List.flatMap_singleton, Nat.succ_mul,
      List.take_add]

/-- The windows of the ceiling split reach the end of the list. -/
theorem length_le_mul_split_size (L N : Nat) (hN : 0 < N) : L ≤ N * ((L + N - 1) / N) := by
  have h := Nat.lt_div_mul_add (a := L + N - 1) hN
  rw [Nat.mul_comm] at h
  omega

/-- A window is the slice between its two cut points, both capped at the length. -/
theorem window_eq_slice {α : Type} (v : List α) (c i : Nat) :
    (v.drop (i * c)).take c =
      (v.drop (min (i * c) v.length)).take (min ((i + 1) * c) v.length - min (i * c) v.length) := by
  have hsucc : (i + 1) * c = i * c + c := Nat.succ_mul i c
  by_cases h : v.length ≤ i * c
  · rw [List.drop_of_length_le h, Nat.min_eq_right h, List.drop_of_length_le (Nat.le_refl _)]
    simp
  · have h1 : i * c ≤ v.length := by omega
    rw [Nat.min_eq_left h1]
    by_cases h2 : (i + 1) * c ≤ v.length
    · rw [Nat.min_eq_left h2]
      congr 1
      omega
    · have h3 : v.length ≤ (i + 1) * c := by omega
      rw [Nat.min_eq_right h3]
      have hlen : (v.drop (i * c)).length = v.length - i * c := List.length_drop _ _
      rw [List.take_of_length_le (by omega), List.take_of_length_le (by omega)]

/-- Claim C2. For a list of length `L` and a shard count `N` with `0 < N ≤ L`, the shards
`GetSplitByIdx v N i`, `i = 0 .. N-1`, concatenated in increasing order of `i`, give back the
list; and there are cut points `0 = b 0 ≤ b 1 ≤ ... ≤ b N = L` such that shard `i` is the run of
the list from position `b i` up to position `b (i+1)`: the shards are contiguous ranges, and
the range of a shard ends where no later shard has begun. The function returns a new list and
has no access to its argument other than reading it. (The bound `N ≤ L` is the one of the
contract; the proof needs `0 < N` only.) -/
theorem GetSplitByIdx_partition {α : Type} (v : List α) (N : Nat) (hN : 0 < N)
    (_hL : N ≤ v.length) :
    (List.range N).flatMap (fun i => GetSplitByIdx v N i) = v ∧
    ∃ b : Nat → Nat, b 0 = 0 ∧ b N = v.length ∧
      (∀ i, i < N → b i ≤ b (i + 1)) ∧
      (∀ i j, i < j → j < N → b (i + 1) ≤ b j) ∧
      ∀ i, i < N → GetSplitByIdx v N i = (v.drop (b i)).take (b (i + 1) - b i) := by
  have hcover := length_le_mul_split_size v.length N hN
  refine ⟨?_, fun i => min (i * ((v.length + N - 1) / N)) v.length, ?_, ?_, ?_, ?_, ?_⟩
  · show (List.range N).flatMap
      (fun i => (v.drop (i * ((v.length + N - 1) / N))).take ((v.length + N - 1) / N)) = v
    rw [flatMap_windows, List.take_of_length_le hcover]
  · simp
  · exact Nat.min_eq_right hcover
  · intro i _
    exact min_le_min (Nat.mul_le_mul_right _ (Nat.le_succ i)) (Nat.le_refl _)
  · intro i j hij _
    exact min_le_min (Nat.mul_le_mul_right _ hij) (Nat.le_refl _)
  · intro i _
    exact window_eq_slice v _ i

/-- Claim C2 on five cameras and two shards: the shards `[1, 2, 3]` and `[4, 5]`. -/
theorem GetSplitByIdx_partition_witness :
    GetSplitByIdx [1, 2, 3, 4, 5] 2 0 = [1, 2, 3] ∧ GetSplitByIdx [1, 2, 3, 4, 5] 2 1 = [4, 5] ∧
    (List.range 2).flatMap (fun i => GetSplitByIdx [1, 2, 3, 4, 5] 2 i) = [1, 2, 3, 4, 5] :=
  ⟨by decide, by decide,
    (GetSplitByIdx_partition [1, 2, 3, 4, 5] 2 (by decide) (by decide)).1⟩

/-! ## The constructor: shard checks and the camera list -/

/-- No exception of the body of the `LoadLights` loop is one of the shard checks. -/
theorem lightOfElement_not_shard {F : Type} (num : Numerics F) (fs : FileSystem)
    (config : AppConfig) (elem : XMLElement) (e : LoadError)
    (h : lightOfElement num fs config elem = .error e) : e.isShardError = false := by
  unfold lightOfElement at h
  cases ht : elem.Attribute "type" with
  | none => simp only [ht] at h; cases h; rfl
  | some t =>
    simp only [ht] at h
    cases hl : kLightTypesMap.lookup t with
    | none => simp only [hl] at h; cases h; rfl
    | some lt =>
      simp only [hl] at h
      cases lt with
      | kEnvironmentLight =>
        simp only at h
        cases hx : elem.Attribute "tex" with
        | none => simp only [hx] at h; cases h; rfl
        | some tex =>
          simp only [hx] at h
          split_ifs at h <;> cases h <;> rfl
      | _ => simp only at h; cases h

/-- No exception of the `LoadLights` loop is one of the shard checks. -/
theorem LoadLightsLoop_not_shard {F : Type} (num : Numerics F) (fs : FileSystem)
    (config : AppConfig) (siblings : List XMLElement) (m_lights : List (LightObject F))
    (e : LoadError) (h : (LoadLightsLoop num fs config siblings m_lights).2 = some e) :
    e.isShardError = false := by
  induction siblings generalizing m_lights with
  | nil => simp [LoadLightsLoop] at h
  | cons elem rest ih =>
    unfold LoadLightsLoop at h
    split_ifs at h
    · cases hl : lightOfElement num fs config elem with
      | error e1 =>
        rw [hl] at h
        cases h
        exact lightOfElement_not_shard num fs config elem _ hl
      | ok light =>
        rw [hl] at h
        exact ih _ h
    · exact ih _ h

/-- No exception of `LoadLights` is one of the shard checks. -/
theorem LoadLights_not_shard {F : Type} (num : Numerics F) (fs : FileSystem)
    (config : AppConfig) (m_lights : List (LightObject F)) (e : LoadError)
    (h : (LoadLights num fs config m_lights).2 = some e) : e.isShardError = false := by
  unfold LoadLights at h
  split at h
  · cases h; rfl
  · exact LoadLightsLoop_not_shard num fs config _ _ e h

/-- No exception of `LoadSpp` is one of the shard checks. -/
theorem LoadSpp_not_shard {F : Type} (num : Numerics F) (fs : FileSystem)
    (config : AppConfig) (m_spp : List Nat) (e : LoadError)
    (h : LoadSpp num fs config m_spp = .error e) : e.isShardError = false := by
  unfold LoadSpp at h
  split at h
  · cases h; rfl
  · cases h

/-- The constructor once validation has passed and the camera file has a `cam_list` root. -/
theorem construct_eq {F : Type} (num : Numerics F) (fs : FileSystem) (config : AppConfig)
    (root : XMLElement) (hvalid : ValidateConfig fs config = .ok ())
    (hroot : FirstChildElement (fs.LoadFile config.camera_file) "cam_list" = some root) :
    ObjectLoader.construct num fs config =
      if config.split_num = 0 ∨ config.split_num >
          ((root.children.filter (fun e => e.Name = "camera")).map
            (cameraOfElement num config)).length then
        ⟨.error .invalidSplitNum, [config.camera_file]⟩
      else if config.split_idx ≥ config.split_num then
        ⟨.error .invalidSplitIdx, [config.camera_file]⟩
      else
        match LoadLights num fs config [] with
        | (_, some e) => ⟨.error e, [config.camera_file, config.light_file]⟩
        | (m_lights, none) =>
          match LoadSpp num fs config [] with
          | .error e => ⟨.error e, [config.camera_file, config.light_file, config.spp_file]⟩
          | .ok m_spp =>
            ⟨.ok { m_cameras := GetSplitByIdx ((root.children.filter
                      (fun e => e.Name = "camera")).map (cameraOfElement num config))
                      config.split_num config.split_idx,
                   m_lights := m_lights, m_spp := m_spp, m_app_config := config },
              [config.camera_file, config.light_file, config.spp_file]⟩ := by
  unfold ObjectLoader.construct
  rw [hvalid, LoadCameras_eq num fs config root hroot]

/-- Claim C1. When `ValidateConfig` passes and the camera file has a `cam_list` root with `L`
`<camera>` elements, the constructor throws one of the two shard exceptions exactly when
`split_num = 0`, `split_num > L` or `split_idx >= split_num`. A bad `split_num` is reported
whatever `split_idx` is, a bad `split_idx` only under a good `split_num`, and in both cases the
camera file is the only document that has been loaded. -/
theorem construct_shard_checks {F : Type} (num : Numerics F) (fs : FileSystem)
    (config : AppConfig) (root : XMLElement) (L : Nat)
    (hvalid : ValidateConfig fs config = .ok ())
    (hroot : FirstChildElement (fs.LoadFile config.camera_file) "cam_list" = some root)
    (hL : (root.children.filter (fun e => e.Name = "camera")).length = L) :
    ((∃ e, (ObjectLoader.construct num fs config).result = .error e ∧ e.isShardError = true) ↔
      (config.split_num = 0 ∨ config.split_num > L ∨ config.split_idx ≥ config.split_num)) ∧
    (config.split_num = 0 ∨ config.split_num > L →
      (ObjectLoader.construct num fs config).result = .error .invalidSplitNum ∧
      (ObjectLoader.construct num fs config).opened = [config.camera_file]) ∧
    (¬ (config.split_num = 0 ∨ config.split_num > L) → config.split_idx ≥ config.split_num →
      (ObjectLoader.construct num fs config).result = .error .invalidSplitIdx ∧
      (ObjectLoader.construct num fs config).opened = [config.camera_file]) := by
  rw [construct_eq num fs config root hvalid hroot, List.length_map, hL]
  by_cases h1 : config.split_num = 0 ∨ config.split_num > L
  · rw [if_pos h1]
    refine ⟨⟨fun _ => ?_, fun _ => ⟨_, rfl, rfl⟩⟩, fun _ => ⟨rfl, rfl⟩, fun h => (h h1).elim⟩
    tauto
  rw [if_neg h1]
  by_cases h2 : config.split_idx ≥ config.split_num
  · rw [if_pos h2]
    exact ⟨⟨fun _ => Or.inr (Or.inr h2), fun _ => ⟨_, rfl, rfl⟩⟩, fun h => (h1 h).elim,
      fun _ _ => ⟨rfl, rfl⟩⟩
  rw [if_neg h2]
  refine ⟨⟨?_, fun h => ?_⟩, fun h => (h1 h).elim, fun _ h => (h2 h).elim⟩
  · rintro ⟨e, he, hs⟩
    exfalso
    rcases hl : LoadLights num fs config [] with ⟨m_lights, _ | e1⟩
    · rw [hl] at he
      cases hp : LoadSpp num fs config [] with
      | error e2 =>
        rw [hp] at he
        cases he
        rw [LoadSpp_not_shard num fs config [] _ hp] at hs
        cases hs
      | ok m_spp =>
        rw [hp] at he
        cases he
    · rw [hl] at he
      cases he
      rw [LoadLights_not_shard num fs config [] e (by rw [hl])] at hs
      cases hs
  · exfalso
    rcases h with h | h | h
    · exact h1 (Or.inl h)
    · exact h1 (Or.inr h)
    · exact h2 h

/-- Claim C1 on two cameras with `split_num = 3` and `split_idx = 7`: both parameters are out of
range, the exception is the one for `split_num`, and only the camera file has been loaded. -/
theorem construct_shard_checks_witness :
    (ObjectLoader.construct intNumerics sampleFiles
        { sampleConfig with split_num := 3, split_idx := 7 }).result = .error .invalidSplitNum ∧
    (ObjectLoader.construct intNumerics sampleFiles
        { sampleConfig with split_num := 3, split_idx := 7 }).opened = ["cam.xml"] :=
  (construct_shard_checks intNumerics sampleFiles
    { sampleConfig with split_num := 3, split_idx := 7 } twoCamerasRoot 2
    (by decide) rfl (by decide)).2.1 (Or.inr (by decide))

/-- What a successful construction says about its steps and about the loader. -/
theorem construct_ok {F : Type} (num : Numerics F) (fs : FileSystem) (config : AppConfig)
    (l : ObjectLoader F) (hok : (ObjectLoader.construct num fs config).result = .ok l) :
    ∃ root m_lights m_spp,
      ValidateConfig fs config = .ok () ∧
      FirstChildElement (fs.LoadFile config.camera_file) "cam_list" = some root ∧
      0 < config.split_num ∧
      config.split_num ≤ (root.children.filter (fun e => e.Name = "camera")).length ∧
      config.split_idx < config.split_num ∧
      LoadLights num fs config [] = (m_lights, none) ∧
      LoadSpp num fs config [] = .ok m_spp ∧
      l = { m_cameras := GetSplitByIdx ((root.children.filter
                (fun e => e.Name = "camera")).map (cameraOfElement num config))
                config.split_num config.split_idx,
            m_lights := m_lights, m_spp := m_spp, m_app_config := config } := by
  cases hv : ValidateConfig fs config with
  | error e =>
    unfold ObjectLoader.construct at hok
    rw [hv] at hok
    cases hok
  | ok u =>
    cases hr : FirstChildElement (fs.LoadFile config.camera_file) "cam_list" with
    | none =>
      unfold ObjectLoader.construct at hok
      rw [hv] at hok
      simp only [LoadCameras, hr] at hok
      cases hok
    | some root =>
      rw [construct_eq num fs config root hv hr, List.length_map] at hok
      by_cases h1 : config.split_num = 0 ∨
          config.split_num > (root.children.filter (fun e => e.Name = "camera")).length
      · rw [if_pos h1] at hok; cases hok
      rw [if_neg h1] at hok
      by_cases h2 : config.split_idx ≥ config.split_num
      · rw [if_pos h2] at hok; cases hok
      rw [if_neg h2] at hok
      rcases hl : LoadLights num fs config [] with ⟨m_lights, _ | e1⟩
      · rw [hl] at hok
        cases hp : LoadSpp num fs config [] with
        | error e2 => rw [hp] at hok; cases hok
        | ok m_spp =>
          rw [hp] at hok
          simp only [Except.ok.injEq] at hok
          exact ⟨root, m_lights, m_spp, rfl, rfl, by omega, by omega, by omega, rfl, rfl,
            hok.symm⟩
      · rw [hl] at hok; cases hok

/-- Claim C9, as stated, fails: the camera file has two `<camera>` elements, and the loader
constructed with `split_num = 2` and `split_idx = 0` holds one camera. -/
theorem Cameras_of_shard_shorter :
    FirstChildElement (sampleFiles.LoadFile "cam.xml") "cam_list" = some twoCamerasRoot ∧
    (twoCamerasRoot.children.filter (fun e => e.Name = "camera")).length = 2 ∧
    (ObjectLoader.construct intNumerics sampleFiles
        { sampleConfig with split_num := 2 }).result.toOption.map
      (fun l => l.Cameras.length) = some 1 :=
  ⟨rfl, by decide, by decide⟩

/-- Claim C9, amended. For a camera file whose `cam_list` root has `N` `<camera>` child elements,
`LoadCameras` yields a list of exactly `N` cameras whose `k`-th camera is built from the `k`-th
`<camera>` element in document order; after a successful construction `Cameras()` is the shard
`GetSplitByIdx` takes from that list for the configured `split_num` and `split_idx`, which is the
whole list when `split_num = 1`. -/
theorem construct_Cameras {F : Type} (num : Numerics F) (fs : FileSystem) (config : AppConfig)
    (root : XMLElement) (l : ObjectLoader F)
    (hroot : FirstChildElement (fs.LoadFile config.camera_file) "cam_list" = some root)
    (hok : (ObjectLoader.construct num fs config).result = .ok l) :
    LoadCameras num fs config [] =
      .ok ((root.children.filter (fun e => e.Name = "camera")).map
        (cameraOfElement num config)) ∧
    ((root.children.filter (fun e => e.Name = "camera")).map
        (cameraOfElement num config)).length =
      (root.children.filter (fun e => e.Name = "camera")).length ∧
    l.Cameras =
      GetSplitByIdx ((root.children.filter (fun e => e.Name = "camera")).map
        (cameraOfElement num config)) config.split_num config.split_idx ∧
    (config.split_num = 1 →
      l.Cameras = (root.children.filter (fun e => e.Name = "camera")).map
        (cameraOfElement num config)) := by
  obtain ⟨root1, m_lights, m_spp, _, hr, _, _, hidx, _, _, hl⟩ := construct_ok num fs config l hok
  rw [hroot] at hr
  cases hr
  refine ⟨LoadCameras_eq num fs config root hroot, List.length_map _ _, ?_, ?_⟩
  · rw [hl]; rfl
  · intro h1
    have h0 : config.split_idx = 0 := by omega
    rw [hl]
    simp [ObjectLoader.Cameras, GetSplitByIdx, h1, h0]

/-- The amended claim C9 with the default `split_num = 1`: both cameras of the file, the first
from the first `<camera>` element (eye x = 1), the second from the second (eye x = 3). -/
theorem construct_Cameras_witness :
    ∃ l, (ObjectLoader.construct intNumerics sampleFiles sampleConfig).result = .ok l ∧
      l.Cameras.map (fun c => c.eye.x) = [1, 3] :=
  match h : (ObjectLoader.construct intNumerics sampleFiles sampleConfig).result with
  | .ok l =>
    ⟨l, rfl, by
      rw [(construct_Cameras intNumerics sampleFiles sampleConfig twoCamerasRoot l rfl h).2.2.2
        rfl]
      decide⟩
  | .error e => by
    have h2 : (ObjectLoader.construct intNumerics sampleFiles sampleConfig).result.toOption.isSome
        = true := by decide
    rw [h] at h2
    cases h2

/-! ## Lights: the type table -/

/-- Claim C6, as stated, fails: with a configured width of `2 ^ 32` the loader is constructed and
the parameters carry width `0`. -/
theorem GetDataGeneratorParams_width_wraps :
    (ObjectLoader.construct intNumerics sampleFiles
        { sampleConfig with width := 4294967296 }).result.toOption.map
      (fun l => (l.GetDataGeneratorParams.width, l.m_app_config.width)) =
      some (some 0, 4294967296) := by
  decide

/-- Claim C6, amended. For a successfully constructed loader, the width and the height of the
parameters are the configured width and height cast to `unsigned`, that is modulo `2 ^ 32`; they
equal the configured values whenever those are below `2 ^ 32`. -/
theorem GetDataGeneratorParams_resolution {F : Type} (num : Numerics F) (fs : FileSystem)
    (config : AppConfig) (l : ObjectLoader F)
    (hok : (ObjectLoader.construct num fs config).result = .ok l) :
    l.GetDataGeneratorParams.width = some (config.width % 2 ^ 32) ∧
    l.GetDataGeneratorParams.height = some (config.height % 2 ^ 32) ∧
    (config.width < 2 ^ 32 → l.GetDataGeneratorParams.width = some config.width) ∧
    (config.height < 2 ^ 32 → l.GetDataGeneratorParams.height = some config.height) := by
  obtain ⟨root, m_lights, m_spp, _, _, _, _, _, _, _, hl⟩ := construct_ok num fs config l hok
  subst hl
  refine ⟨rfl, rfl, fun h => ?_, fun h => ?_⟩
  · show some (config.width % 2 ^ 32) = some config.width
    rw [Nat.mod_eq_of_lt h]
  · show some (config.height % 2 ^ 32) = some config.height
    rw [Nat.mod_eq_of_lt h]

/-- The amended claim C6 on the sample configuration: width 800 and height 600. -/
theorem GetDataGeneratorParams_resolution_witness :
    ∃ l, (ObjectLoader.construct intNumerics sampleFiles sampleConfig).result = .ok l ∧
      l.GetDataGeneratorParams.width = some 800 ∧ l.GetDataGeneratorParams.height = some 600 :=
  match h : (ObjectLoader.construct intNumerics sampleFiles sampleConfig).result with
  | .ok l =>
    have hp := GetDataGeneratorParams_resolution intNumerics sampleFiles sampleConfig l h
    ⟨l, rfl, hp.2.2.1 (by decide), hp.2.2.2 (by decide)⟩
  | .error e => by
    have h2 : (ObjectLoader.construct intNumerics sampleFiles sampleConfig).result.toOption.isSome
        = true := by decide
    rw [h] at h2
    cases h2

/-- Claim C7. The loader constructed from the sample files holds two cameras, one light and one
spp entry, with the default `num_bounces = 5` configured; in the parameters it returns, the
counts `cameras_num`, `lights_num`, `spp_num`, the pointers `cameras`, `lights`, `spp` and the
members `bounces_num` and `device_idx` have never been assigned. -/
theorem GetDataGeneratorParams_leaves_members_unassigned :
    ∃ l, (ObjectLoader.construct intNumerics sampleFiles sampleConfig).result = .ok l ∧
      (l.Cameras.length = 2 ∧ l.GetDataGeneratorParams.cameras_num = none ∧
        l.GetDataGeneratorParams.cameras = none) ∧
      (l.Lights.length = 1 ∧ l.GetDataGeneratorParams.lights_num = none ∧
        l.GetDataGeneratorParams.lights = none) ∧
      (l.Spp.length = 1 ∧ l.GetDataGeneratorParams.spp_num = none ∧
        l.GetDataGeneratorParams.spp = none) ∧
      (l.m_app_config.num_bounces = 5 ∧ l.GetDataGeneratorParams.bounces_num = none) ∧
      (l.m_app_config.device_idx = 0 ∧ l.GetDataGeneratorParams.device_idx = none) :=
  ⟨_, rfl, ⟨by decide, rfl, rfl⟩, ⟨by decide, rfl, rfl⟩, ⟨by decide, rfl, rfl⟩, ⟨rfl, rfl⟩,
    ⟨rfl, rfl⟩⟩

end Baikal
